import Mathlib

/-!
Shallow embedding of the `captcha-a2-client` TypeScript library
(`src/index.ts`): the `CaptchaA2Client` class, its private request
primitive `makeRequest`, the `CaptchaA2Error` class and the seven
public domain methods.  The HTTP transport (`node-fetch`) is modelled
as a pure oracle `Transport : HttpRequest → FetchResponse`; the result
of `response.json()` is the oracle's `json` field (`Except.error`
models a rejected parse promise).  JavaScript runtime values carried
by the envelope are modelled by the inductive `Json`; the TS cast
`as CaptChaA2Response` performs no runtime validation, so the parsed
envelope stays an untyped `Json` value throughout, exactly as at
runtime.  Methods thread the client record explicitly so that
mutation (and its absence) is visible in the model.
-/

/-- JavaScript JSON runtime values (the result of a successful
`response.json()` and the payloads passed to `JSON.stringify`). -/
inductive Json where
  | null : Json
  | bool : Bool → Json
  | num : Int → Json
  | str : String → Json
  | arr : List Json → Json
  | obj : List (String × Json) → Json

/-- JavaScript truthiness of a JSON value (the `if (body)` test in
`makeRequest`); objects and arrays are always truthy. -/
def jsTruthy : Json → Bool
  | Json.null => false
  | Json.bool b => b
  | Json.num n => n != 0
  | Json.str s => s != ""
  | Json.arr _ => true
  | Json.obj _ => true

/-- Escaping of a single character inside a JSON string literal, as
`JSON.stringify` performs it for the characters that occur here. -/
def escapeJsonChar (c : Char) : String :=
  if c = '"' then "\\\""
  else if c = '\\' then "\\\\"
  else if c = '\n' then "\\n"
  else if c = '\r' then "\\r"
  else if c = '\t' then "\\t"
  else String.singleton c

/-- Escape a whole string for inclusion in a JSON string literal. -/
def escapeJsonString (s : String) : String :=
  String.join (s.toList.map escapeJsonChar)

mutual

/-- Model of `JSON.stringify` on JSON values. -/
def Json.stringify : Json → String
  | Json.null => "null"
  | Json.bool b => if b then "true" else "false"
  | Json.num n => toString n
  | Json.str s => "\"" ++ escapeJsonString s ++ "\""
  | Json.arr xs => "[" ++ Json.stringifyArray xs ++ "]"
  | Json.obj fs => "\x7b" ++ Json.stringifyFields fs ++ "\x7d"

/-- Comma-separated serialization of array elements. -/
def Json.stringifyArray : List Json → String
  | [] => ""
  | [x] => Json.stringify x
  | x :: y :: xs => Json.stringify x ++ "," ++ Json.stringifyArray (y :: xs)

/-- Comma-separated serialization of object fields. -/
def Json.stringifyFields : List (String × Json) → String
  | [] => ""
  | [(k, v)] => "\"" ++ escapeJsonString k ++ "\":" ++ Json.stringify v
  | (k, v) :: f :: fs =>
      "\"" ++ escapeJsonString k ++ "\":" ++ Json.stringify v ++ ","
        ++ Json.stringifyFields (f :: fs)

end

/-- Field lookup in a JSON object field list (first match; parsed JSON
objects have unique keys). -/
def lookupField : List (String × Json) → String → Option Json
  | [], _ => none
  | (k, v) :: rest, name =>
      if k = name then some v else lookupField rest name

/-- JavaScript property access `j.name` on a parsed JSON value:
`none` models `undefined`. -/
def Json.getField : Json → String → Option Json
  | Json.obj fields, name => lookupField fields name
  | _, _ => none

/-- Percent-encoding alphabet: the characters `encodeURIComponent`
leaves unescaped (A-Z, a-z, 0-9 and `- _ . ! ~ * ' ( )`). -/
def isUnreservedUriChar (c : Char) : Bool :=
  let n := c.toNat
  (65 ≤ n && n ≤ 90) || (97 ≤ n && n ≤ 122) || (48 ≤ n && n ≤ 57) ||
  n == 45 || n == 95 || n == 46 || n == 33 || n == 126 ||
  n == 42 || n == 39 || n == 40 || n == 41

/-- Upper-case hexadecimal digit for a value below 16. -/
def hexDigitUpper (n : Nat) : Char :=
  if n < 10 then Char.ofNat (48 + n) else Char.ofNat (55 + n)

/-- Percent-encode one byte as `%HH` with upper-case hex digits. -/
def percentEncodeByte (b : Nat) : String :=
  "%" ++ String.singleton (hexDigitUpper (b / 16))
      ++ String.singleton (hexDigitUpper (b % 16))

/-- UTF-8 byte sequence of a character's code point. -/
def utf8BytesOfChar (c : Char) : List Nat :=
  let n := c.toNat
  if n < 128 then [n]
  else if n < 2048 then [192 + n / 64, 128 + n % 64]
  else if n < 65536 then
    [224 + n / 4096, 128 + (n / 64) % 64, 128 + n % 64]
  else
    [240 + n / 262144, 128 + (n / 4096) % 64, 128 + (n / 64) % 64,
     128 + n % 64]

/-- Model of JavaScript's `encodeURIComponent`: unreserved characters
pass through, every other character is replaced by the percent-encoded
bytes of its UTF-8 encoding. -/
def encodeURIComponent (s : String) : String :=
  String.join (s.toList.map fun c =>
    if isUnreservedUriChar c then String.singleton c
    else String.join ((utf8BytesOfChar c).map percentEncodeByte))

/-- The HTTP request handed to `fetch`: URL, method, header list and
optional serialized body (the `options` object of `makeRequest`). -/
structure HttpRequest where
  url : String
  method : String
  headers : List (String × String)
  body : Option String

/-- The transport's answer: HTTP status plus the outcome of
`response.json()` (`Except.error` models a rejected parse, carrying
the underlying failure). -/
structure FetchResponse where
  status : Nat
  json : Except String Json

/-- `response.ok` of the Fetch API: status in the 2xx range. -/
def FetchResponse.ok (r : FetchResponse) : Bool :=
  decide (200 ≤ r.status) && decide (r.status ≤ 299)

/-- The HTTP transport (`node-fetch`) as a pure oracle. -/
abbrev Transport := HttpRequest → FetchResponse

/-- Rejection values a client call can produce: either a structured
`CaptchaA2Error` (carrying the parsed envelope verbatim, since the TS
constructor stores the parsed object unchanged in `errResponse`), or
the underlying failure propagated unwrapped (`raw`). -/
structure CaptchaA2Error where
  errResponse : Json

/-- `toJSON` of the `CaptchaA2Error` class: the stored envelope. -/
def CaptchaA2Error.toJSON (e : CaptchaA2Error) : Json :=
  e.errResponse

/-- The two failure shapes a caller can observe. -/
inductive JsError where
  | captchaA2 : CaptchaA2Error → JsError
  | raw : String → JsError

/-- The four private fields of the `CaptchaA2Client` class. -/
structure CaptchaA2Client where
  baseUrl : String
  apiKey : String
  appName : String
  clientIp : String

/-- The constructor's config argument `{ baseUrl, apiKey, appName }`. -/
structure ClientConfig where
  baseUrl : String
  apiKey : String
  appName : String

/-- The class constructor: copies the three config fields and
initializes `clientIp` to the sentinel `"none"`. -/
def CaptchaA2Client.create (config : ClientConfig) : CaptchaA2Client :=
  { baseUrl := config.baseUrl
    apiKey := config.apiKey
    appName := config.appName
    clientIp := "none" }

/-- `setClientIp(clientIp)`: assigns the `clientIp` field and touches
nothing else. -/
def CaptchaA2Client.setClientIp (c : CaptchaA2Client) (clientIp : String) :
    CaptchaA2Client :=
  { c with clientIp := clientIp }

/-- The serialized request body: `JSON.stringify(body)` when the
`body` argument is present and truthy (`if (body)`), omitted
otherwise. -/
def requestBody : Option Json → Option String
  | some b => if jsTruthy b then some (Json.stringify b) else none
  | none => none

/-- The `options` value `makeRequest` hands to `fetch`: URL built by
plain concatenation `baseUrl + endpoint`, the four fixed headers in
source order, and the optional serialized body. -/
def CaptchaA2Client.makeRequestOptions (c : CaptchaA2Client)
    (endpoint method : String) (body : Option Json) : HttpRequest :=
  { url := c.baseUrl ++ endpoint
    method := method
    headers :=
      [("Api-Key", c.apiKey), ("X-Client-IP", c.clientIp),
       ("X-App", c.appName), ("Content-Type", "application/json")]
    body := requestBody body }

/-- The response half of `makeRequest`: parse first
(`await response.json()`), then `if (!response.ok) throw new
CaptchaA2Error(jsonResponse)`, else return the parsed envelope. A
failed parse propagates the underlying failure unwrapped (the
`try/catch` rethrows it unchanged). -/
def handleFetchResponse (response : FetchResponse) : Except JsError Json :=
  match response.json with
  | Except.error e => Except.error (JsError.raw e)
  | Except.ok jsonResponse =>
      if !response.ok then
        Except.error (JsError.captchaA2 { errResponse := jsonResponse })
      else
        Except.ok jsonResponse

/-- The private request primitive `makeRequest(endpoint, method,
body)`: builds the options, issues the call through the transport and
handles the response.  The client record is returned unchanged —
the source assigns to no field here. -/
def CaptchaA2Client.makeRequest (c : CaptchaA2Client) (transport : Transport)
    (endpoint method : String) (body : Option Json) :
    Except JsError Json × CaptchaA2Client :=
  (handleFetchResponse (transport (c.makeRequestOptions endpoint method body)), c)

/-- `generateCaptcha()`: GET `/api/v1/captcha/generate`, returns the
parsed envelope as-is. -/
def CaptchaA2Client.generateCaptcha (c : CaptchaA2Client)
    (transport : Transport) : Except JsError Json × CaptchaA2Client :=
  c.makeRequest transport "/api/v1/captcha/generate" "GET" none

/-- `checkCaptcha(captchaKey, value)`: POST `/api/v1/captcha/check`
with body `{captchaKey, value}`, returns `response.data` (property
access on the untyped parsed envelope; `none` models `undefined`). -/
def CaptchaA2Client.checkCaptcha (c : CaptchaA2Client) (transport : Transport)
    (captchaKey value : String) :
    Except JsError (Option Json) × CaptchaA2Client :=
  let r := c.makeRequest transport "/api/v1/captcha/check" "POST"
    (some (Json.obj [("captchaKey", Json.str captchaKey),
                     ("value", Json.str value)]))
  match r.1 with
  | Except.ok response => (Except.ok (response.getField "data"), r.2)
  | Except.error e => (Except.error e, r.2)

/-- `verifyCaptcha(captchaKey, value)`: POST `/api/v1/captcha/verify`
with body `{captchaKey, value}`, returns the parsed envelope as-is. -/
def CaptchaA2Client.verifyCaptcha (c : CaptchaA2Client) (transport : Transport)
    (captchaKey value : String) : Except JsError Json × CaptchaA2Client :=
  c.makeRequest transport "/api/v1/captcha/verify" "POST"
    (some (Json.obj [("captchaKey", Json.str captchaKey),
                     ("value", Json.str value)]))

/-- `sendSmsWithCaptcha(captchaKey, value, phone, code)`: POST
`/api/v1/sms/send-with-captcha` with body
`{captchaKey, value, phone, code}`, returns the envelope as-is. -/
def CaptchaA2Client.sendSmsWithCaptcha (c : CaptchaA2Client)
    (transport : Transport) (captchaKey value phone : String) (code : Int) :
    Except JsError Json × CaptchaA2Client :=
  c.makeRequest transport "/api/v1/sms/send-with-captcha" "POST"
    (some (Json.obj [("captchaKey", Json.str captchaKey),
                     ("value", Json.str value),
                     ("phone", Json.str phone),
                     ("code", Json.num code)]))

/-- `verifySms(phone, code)`: POST `/api/v1/sms/verify` with body
`{phone, code}`, returns the envelope as-is. -/
def CaptchaA2Client.verifySms (c : CaptchaA2Client) (transport : Transport)
    (phone : String) (code : Int) : Except JsError Json × CaptchaA2Client :=
  c.makeRequest transport "/api/v1/sms/verify" "POST"
    (some (Json.obj [("phone", Json.str phone), ("code", Json.num code)]))

/-- `clearIpRateLimit()`: GET `/api/v1/sms/clearip`, returns the
envelope as-is. -/
def CaptchaA2Client.clearIpRateLimit (c : CaptchaA2Client)
    (transport : Transport) : Except JsError Json × CaptchaA2Client :=
  c.makeRequest transport "/api/v1/sms/clearip" "GET" none

/-- `clearPhoneRateLimit(phone)`: GET
`/api/v1/sms/clear?phone=${encodeURIComponent(phone)}`, returns the
envelope as-is. -/
def CaptchaA2Client.clearPhoneRateLimit (c : CaptchaA2Client)
    (transport : Transport) (phone : String) :
    Except JsError Json × CaptchaA2Client :=
  c.makeRequest transport
    ("/api/v1/sms/clear?phone=" ++ encodeURIComponent phone) "GET" none

/-- The exact header list every request carries (spec §6): `Api-Key`,
`X-Client-IP`, `X-App`, `Content-Type: application/json`. -/
def fourHeaders (c : CaptchaA2Client) : List (String × String) :=
  [("Api-Key", c.apiKey), ("X-Client-IP", c.clientIp),
   ("X-App", c.appName), ("Content-Type", "application/json")]

/-- Fixture: a concrete client configuration. -/
def sampleConfig : ClientConfig :=
  { baseUrl := "https://captcha.example", apiKey := "secret-key",
    appName := "demo-app" }

/-- Fixture: the client built from `sampleConfig`. -/
def sampleClient : CaptchaA2Client :=
  CaptchaA2Client.create sampleConfig

/-- Fixture: the HTTP 400 error envelope from spec §8. -/
def env400 : Json :=
  Json.obj [("code", Json.str "400"), ("data", Json.null),
            ("error", Json.str "BAD_VALUE"), ("message", Json.str "invalid")]

/-- Fixture: a transport answering every request with HTTP 400 and the
parseable envelope `env400`. -/
def transport400 : Transport :=
  fun _ => { status := 400, json := Except.ok env400 }

/-- Fixture: a transport answering HTTP 200 with a body that is not
JSON, so `response.json()` rejects. -/
def transportParseFail : Transport :=
  fun _ => { status := 200,
             json := Except.error "Unexpected token < in JSON at position 0" }

/-- Fixture: success envelope whose `data` is `true`. -/
def envDataTrue : Json :=
  Json.obj [("code", Json.str "0"), ("data", Json.bool true),
            ("error", Json.str ""), ("message", Json.str "ok")]

/-- Fixture: success envelope whose `data` is `false`. -/
def envDataFalse : Json :=
  Json.obj [("code", Json.str "0"), ("data", Json.bool false),
            ("error", Json.str ""), ("message", Json.str "ok")]

/-- Fixture: transport returning HTTP 200 with `envDataTrue`. -/
def transportDataTrue : Transport :=
  fun _ => { status := 200, json := Except.ok envDataTrue }

/-- Fixture: transport returning HTTP 200 with `envDataFalse`. -/
def transportDataFalse : Transport :=
  fun _ => { status := 200, json := Except.ok envDataFalse }

/-- Fixture: a full challenge envelope with the documented fields. -/
def envChallenge : Json :=
  Json.obj [("captcha_key", Json.str "ck-1"),
            ("image", Json.str "data:image/png;base64,AAA"),
            ("thumb", Json.str "data:image/png;base64,BBB"),
            ("thumbX", Json.num 12), ("thumbY", Json.num 34),
            ("thumbWidth", Json.num 60), ("thumbHeight", Json.num 40),
            ("master_width", Json.num 300), ("master_height", Json.num 200),
            ("id", Json.str "42")]

/-- Fixture: transport returning HTTP 200 with `envChallenge`. -/
def transportChallenge : Transport :=
  fun _ => { status := 200, json := Except.ok envChallenge }

/-- Fixture: success envelope whose `data` is the string `"yes"` —
neither a boolean nor null. -/
def nonBoolDataEnv : Json :=
  Json.obj [("code", Json.str "0"), ("data", Json.str "yes"),
            ("error", Json.str ""), ("message", Json.str "ok")]

/-- Fixture: transport returning HTTP 200 with `nonBoolDataEnv`. -/
def nonBoolDataTransport : Transport :=
  fun _ => { status := 200, json := Except.ok nonBoolDataEnv }

/-- Fixture: a transport that only answers successfully when the
request carries exactly the four expected headers of `sampleClient`,
and fails otherwise. -/
def headerCheckingTransport : Transport :=
  fun req =>
    if req.headers =
        [("Api-Key", "secret-key"), ("X-Client-IP", "none"),
         ("X-App", "demo-app"), ("Content-Type", "application/json")] then
      { status := 200, json := Except.ok Json.null }
    else
      { status := 500, json := Except.error "wrong headers" }

/-- Fixture: a transport answering every request successfully. -/
def plainTransport : Transport :=
  fun _ => { status := 200, json := Except.ok Json.null }

/-- Claim C3: every request issued by any domain method carries
exactly the four headers `Api-Key` (the configured apiKey),
`X-Client-IP` (the current clientIp), `X-App` (the configured
appName) and `Content-Type: application/json`, for GET and POST
alike, with or without a body: the options builder always emits
exactly `fourHeaders`, and every domain method's observable behaviour
depends only on the transport's answers at requests carrying those
headers. -/
theorem every_request_carries_exactly_four_headers
    (c : CaptchaA2Client) (t₁ t₂ : Transport)
    (endpoint method : String) (body : Option Json)
    (captchaKey value phone : String) (code : Int)
    (hagree : ∀ req : HttpRequest, req.headers = fourHeaders c → t₁ req = t₂ req) :
    (c.makeRequestOptions endpoint method body).headers = fourHeaders c ∧
    c.generateCaptcha t₁ = c.generateCaptcha t₂ ∧
    c.checkCaptcha t₁ captchaKey value = c.checkCaptcha t₂ captchaKey value ∧
    c.verifyCaptcha t₁ captchaKey value = c.verifyCaptcha t₂ captchaKey value ∧
    c.sendSmsWithCaptcha t₁ captchaKey value phone code =
      c.sendSmsWithCaptcha t₂ captchaKey value phone code ∧
    c.verifySms t₁ phone code = c.verifySms t₂ phone code ∧
    c.clearIpRateLimit t₁ = c.clearIpRateLimit t₂ ∧
    c.clearPhoneRateLimit t₁ phone = c.clearPhoneRateLimit t₂ phone := by
  have h : ∀ e m b, t₁ (c.makeRequestOptions e m b) = t₂ (c.makeRequestOptions e m b) :=
    fun e m b => hagree (c.makeRequestOptions e m b) rfl
  refine ⟨rfl, ?_, ?_, ?_, ?_, ?_, ?_, ?_⟩ <;>
    simp only [CaptchaA2Client.generateCaptcha, CaptchaA2Client.checkCaptcha,
      CaptchaA2Client.verifyCaptcha, CaptchaA2Client.sendSmsWithCaptcha,
      CaptchaA2Client.verifySms, CaptchaA2Client.clearIpRateLimit,
      CaptchaA2Client.clearPhoneRateLimit, CaptchaA2Client.makeRequest, h]

/-- Claim C3 witness: for the concrete `sampleClient`, a transport
that fails every request not carrying exactly the four expected
headers is indistinguishable from one that always succeeds, across
all seven domain methods — so every issued request carried exactly
those headers. -/
theorem every_request_carries_exactly_four_headers_witness :
    (sampleClient.makeRequestOptions "/e" "GET" none).headers = fourHeaders sampleClient ∧
    sampleClient.generateCaptcha plainTransport =
      sampleClient.generateCaptcha headerCheckingTransport ∧
    sampleClient.checkCaptcha plainTransport "key" "179,76" =
      sampleClient.checkCaptcha headerCheckingTransport "key" "179,76" ∧
    sampleClient.verifyCaptcha plainTransport "key" "179,76" =
      sampleClient.verifyCaptcha headerCheckingTransport "key" "179,76" ∧
    sampleClient.sendSmsWithCaptcha plainTransport "key" "179,76" "13800000000" 1234 =
      sampleClient.sendSmsWithCaptcha headerCheckingTransport "key" "179,76" "13800000000" 1234 ∧
    sampleClient.verifySms plainTransport "13800000000" 1234 =
      sampleClient.verifySms headerCheckingTransport "13800000000" 1234 ∧
    sampleClient.clearIpRateLimit plainTransport =
      sampleClient.clearIpRateLimit headerCheckingTransport ∧
    sampleClient.clearPhoneRateLimit plainTransport "+1 555 0100" =
      sampleClient.clearPhoneRateLimit headerCheckingTransport "+1 555 0100" := by
  have hagree : ∀ req : HttpRequest, req.headers = fourHeaders sampleClient →
      plainTransport req = headerCheckingTransport req := by
    intro req hreq
    simp [plainTransport, headerCheckingTransport, hreq, fourHeaders,
      sampleClient, sampleConfig, CaptchaA2Client.create]
  exact every_request_carries_exactly_four_headers sampleClient plainTransport
    headerCheckingTransport "/e" "GET" none "key" "179,76" "+1 555 0100" 1234 hagree

/-- Claim C4: after construction `clientIp` is the sentinel `"none"`
(so the `X-Client-IP` header is `"none"` until `setClientIp` is
called); after `setClientIp ip` every request built from the updated
client carries `X-Client-IP: ip`; and `setClientIp` changes no field
other than `clientIp`. -/
theorem clientIp_initializes_none_and_setter_updates_only_clientIp
    (cfg : ClientConfig) (c : CaptchaA2Client)
    (ip endpoint method : String) (body : Option Json) :
    (CaptchaA2Client.create cfg).clientIp = "none" ∧
    (CaptchaA2Client.create cfg).baseUrl = cfg.baseUrl ∧
    (CaptchaA2Client.create cfg).apiKey = cfg.apiKey ∧
    (CaptchaA2Client.create cfg).appName = cfg.appName ∧
    ((CaptchaA2Client.create cfg).makeRequestOptions endpoint method body).headers =
      [("Api-Key", cfg.apiKey), ("X-Client-IP", "none"),
       ("X-App", cfg.appName), ("Content-Type", "application/json")] ∧
    (c.setClientIp ip).clientIp = ip ∧
    (c.setClientIp ip).baseUrl = c.baseUrl ∧
    (c.setClientIp ip).apiKey = c.apiKey ∧
    (c.setClientIp ip).appName = c.appName ∧
    ((c.setClientIp ip).makeRequestOptions endpoint method body).headers =
      [("Api-Key", c.apiKey), ("X-Client-IP", ip),
       ("X-App", c.appName), ("Content-Type", "application/json")] :=
  ⟨rfl, rfl, rfl, rfl, rfl, rfl, rfl, rfl, rfl, rfl⟩

/-- Claim C7: `clearPhoneRateLimit phone` issues a GET request, with
no body, whose path is `/api/v1/sms/clear?phone=` followed by the
URL-encoded phone number; in particular `"+1 555 0100"` is encoded as
`%2B1%20555%200100` (space and plus correctly escaped). -/
theorem clearPhoneRateLimit_urlencodes_phone_query
    (c : CaptchaA2Client) (t : Transport) (phone : String) :
    c.clearPhoneRateLimit t phone =
      (handleFetchResponse (t (c.makeRequestOptions
        ("/api/v1/sms/clear?phone=" ++ encodeURIComponent phone) "GET" none)), c) ∧
    (c.makeRequestOptions ("/api/v1/sms/clear?phone=" ++ encodeURIComponent phone)
        "GET" none).url =
      c.baseUrl ++ ("/api/v1/sms/clear?phone=" ++ encodeURIComponent phone) ∧
    (c.makeRequestOptions ("/api/v1/sms/clear?phone=" ++ encodeURIComponent phone)
        "GET" none).method = "GET" ∧
    (c.makeRequestOptions ("/api/v1/sms/clear?phone=" ++ encodeURIComponent phone)
        "GET" none).body = none ∧
    encodeURIComponent "+1 555 0100" = "%2B1%20555%200100" :=
  ⟨rfl, rfl, rfl, rfl, rfl⟩

/-- Claim C8: the request primitive builds the URL as the exact
concatenation `baseUrl ++ endpoint` with no slash normalization; a
present (object) body is serialized with `JSON.stringify`, and an
absent body is omitted entirely. -/
theorem makeRequest_url_concat_and_body_rules
    (c : CaptchaA2Client) (endpoint method : String) (body : Option Json)
    (fields : List (String × Json)) :
    (c.makeRequestOptions endpoint method body).url = c.baseUrl ++ endpoint ∧
    (c.makeRequestOptions endpoint method (some (Json.obj fields))).body =
      some (Json.stringify (Json.obj fields)) ∧
    (c.makeRequestOptions endpoint method none).body = none :=
  ⟨rfl, rfl, rfl⟩

/-- Claim C10: neither the request primitive nor any of the seven
domain methods mutates the client's four configuration fields — the
returned client record is unchanged whatever the transport answers
(success or failure alike); `setClientIp` is the only mutator. -/
theorem domain_methods_preserve_client_state
    (c : CaptchaA2Client) (t : Transport) (endpoint method : String)
    (body : Option Json) (captchaKey value phone : String) (code : Int) :
    (c.makeRequest t endpoint method body).2 = c ∧
    (c.generateCaptcha t).2 = c ∧
    (c.checkCaptcha t captchaKey value).2 = c ∧
    (c.verifyCaptcha t captchaKey value).2 = c ∧
    (c.sendSmsWithCaptcha t captchaKey value phone code).2 = c ∧
    (c.verifySms t phone code).2 = c ∧
    (c.clearIpRateLimit t).2 = c ∧
    (c.clearPhoneRateLimit t phone).2 = c := by
  refine ⟨rfl, rfl, ?_, rfl, rfl, rfl, rfl, rfl⟩
  simp only [CaptchaA2Client.checkCaptcha, CaptchaA2Client.makeRequest]
  split <;> rfl

/-- Claim C1: for every domain method, if the transport returns a
non-2xx status with a parseable JSON envelope, the call rejects with
a structured `CaptchaA2Error` built from that parsed envelope — the
envelope is stored verbatim in `errResponse` (so its four fields
code, data, error, message reach the caller unchanged, and `toJSON`
returns the envelope itself), not a generic HTTP error. -/
theorem domain_methods_reject_structured_error_on_non2xx
    (c : CaptchaA2Client) (t : Transport) (env : Json)
    (captchaKey value phone : String) (code : Int)
    (hok : ∀ req, (t req).ok = false)
    (hjson : ∀ req, (t req).json = Except.ok env) :
    (c.generateCaptcha t).1 =
      Except.error (JsError.captchaA2 { errResponse := env }) ∧
    (c.checkCaptcha t captchaKey value).1 =
      Except.error (JsError.captchaA2 { errResponse := env }) ∧
    (c.verifyCaptcha t captchaKey value).1 =
      Except.error (JsError.captchaA2 { errResponse := env }) ∧
    (c.sendSmsWithCaptcha t captchaKey value phone code).1 =
      Except.error (JsError.captchaA2 { errResponse := env }) ∧
    (c.verifySms t phone code).1 =
      Except.error (JsError.captchaA2 { errResponse := env }) ∧
    (c.clearIpRateLimit t).1 =
      Except.error (JsError.captchaA2 { errResponse := env }) ∧
    (c.clearPhoneRateLimit t phone).1 =
      Except.error (JsError.captchaA2 { errResponse := env }) ∧
    CaptchaA2Error.toJSON { errResponse := env } = env := by
  have hresp : ∀ req, handleFetchResponse (t req) =
      Except.error (JsError.captchaA2 { errResponse := env }) := by
    intro req
    simp [handleFetchResponse, hjson req, hok req]
  refine ⟨?_, ?_, ?_, ?_, ?_, ?_, ?_, rfl⟩ <;>
    simp [CaptchaA2Client.generateCaptcha, CaptchaA2Client.checkCaptcha,
      CaptchaA2Client.verifyCaptcha, CaptchaA2Client.sendSmsWithCaptcha,
      CaptchaA2Client.verifySms, CaptchaA2Client.clearIpRateLimit,
      CaptchaA2Client.clearPhoneRateLimit, CaptchaA2Client.makeRequest, hresp]

/-- Claim C1 witness: against the concrete transport answering HTTP
400 with the envelope code "400" / error "BAD_VALUE" / message
"invalid" / data null, each of the seven domain methods rejects with
the structured error carrying exactly that envelope. -/
theorem domain_methods_reject_structured_error_on_non2xx_witness :
    (sampleClient.generateCaptcha transport400).1 =
      Except.error (JsError.captchaA2 { errResponse := env400 }) ∧
    (sampleClient.checkCaptcha transport400 "key" "179,76").1 =
      Except.error (JsError.captchaA2 { errResponse := env400 }) ∧
    (sampleClient.verifyCaptcha transport400 "key" "179,76").1 =
      Except.error (JsError.captchaA2 { errResponse := env400 }) ∧
    (sampleClient.sendSmsWithCaptcha transport400 "key" "179,76" "13800000000" 1234).1 =
      Except.error (JsError.captchaA2 { errResponse := env400 }) ∧
    (sampleClient.verifySms transport400 "13800000000" 1234).1 =
      Except.error (JsError.captchaA2 { errResponse := env400 }) ∧
    (sampleClient.clearIpRateLimit transport400).1 =
      Except.error (JsError.captchaA2 { errResponse := env400 }) ∧
    (sampleClient.clearPhoneRateLimit transport400 "+1 555 0100").1 =
      Except.error (JsError.captchaA2 { errResponse := env400 }) ∧
    CaptchaA2Error.toJSON { errResponse := env400 } = env400 :=
  domain_methods_reject_structured_error_on_non2xx sampleClient transport400
    env400 "key" "179,76" "13800000000" 1234 (fun _ => rfl) (fun _ => rfl)

/-- Claim C2: for every domain method, if `response.json()` fails
(whatever the HTTP status, including 200), the call rejects with the
underlying failure propagated unwrapped as `JsError.raw` — never a
structured `CaptchaA2Error`, so the two failure shapes remain
distinguishable. -/
theorem parse_failure_propagates_unwrapped
    (c : CaptchaA2Client) (t : Transport) (e : String)
    (captchaKey value phone : String) (code : Int)
    (hjson : ∀ req, (t req).json = Except.error e) :
    (c.generateCaptcha t).1 = Except.error (JsError.raw e) ∧
    (c.checkCaptcha t captchaKey value).1 = Except.error (JsError.raw e) ∧
    (c.verifyCaptcha t captchaKey value).1 = Except.error (JsError.raw e) ∧
    (c.sendSmsWithCaptcha t captchaKey value phone code).1 =
      Except.error (JsError.raw e) ∧
    (c.verifySms t phone code).1 = Except.error (JsError.raw e) ∧
    (c.clearIpRateLimit t).1 = Except.error (JsError.raw e) ∧
    (c.clearPhoneRateLimit t phone).1 = Except.error (JsError.raw e) ∧
    ∀ err : CaptchaA2Error, JsError.raw e ≠ JsError.captchaA2 err := by
  have hresp : ∀ req, handleFetchResponse (t req) =
      Except.error (JsError.raw e) := by
    intro req
    simp [handleFetchResponse, hjson req]
  refine ⟨?_, ?_, ?_, ?_, ?_, ?_, ?_, fun err h => by cases h⟩ <;>
    simp [CaptchaA2Client.generateCaptcha, CaptchaA2Client.checkCaptcha,
      CaptchaA2Client.verifyCaptcha, CaptchaA2Client.sendSmsWithCaptcha,
      CaptchaA2Client.verifySms, CaptchaA2Client.clearIpRateLimit,
      CaptchaA2Client.clearPhoneRateLimit, CaptchaA2Client.makeRequest, hresp]

/-- Claim C2 witness: against the concrete transport answering HTTP
200 with a non-JSON body (a rejected parse), each of the seven domain
methods rejects with the raw parse failure, unwrapped. -/
theorem parse_failure_propagates_unwrapped_witness :
    (sampleClient.generateCaptcha transportParseFail).1 =
      Except.error (JsError.raw "Unexpected token < in JSON at position 0") ∧
    (sampleClient.checkCaptcha transportParseFail "key" "179,76").1 =
      Except.error (JsError.raw "Unexpected token < in JSON at position 0") ∧
    (sampleClient.verifyCaptcha transportParseFail "key" "179,76").1 =
      Except.error (JsError.raw "Unexpected token < in JSON at position 0") ∧
    (sampleClient.sendSmsWithCaptcha transportParseFail "key" "179,76" "13800000000" 1234).1 =
      Except.error (JsError.raw "Unexpected token < in JSON at position 0") ∧
    (sampleClient.verifySms transportParseFail "13800000000" 1234).1 =
      Except.error (JsError.raw "Unexpected token < in JSON at position 0") ∧
    (sampleClient.clearIpRateLimit transportParseFail).1 =
      Except.error (JsError.raw "Unexpected token < in JSON at position 0") ∧
    (sampleClient.clearPhoneRateLimit transportParseFail "+1 555 0100").1 =
      Except.error (JsError.raw "Unexpected token < in JSON at position 0") := by
  have h := parse_failure_propagates_unwrapped sampleClient transportParseFail
    "Unexpected token < in JSON at position 0" "key" "179,76" "13800000000" 1234
    (fun _ => rfl)
  exact ⟨h.1, h.2.1, h.2.2.1, h.2.2.2.1, h.2.2.2.2.1, h.2.2.2.2.2.1,
    h.2.2.2.2.2.2.1⟩

/-- Claim C5: `checkCaptcha captchaKey value` resolves to the `data`
field of the response envelope — when `data` is the boolean `b` the
call resolves to `b` (covering both `true` and `false`) — and the
client record is returned unchanged. -/
theorem checkCaptcha_resolves_boolean_data_preserving_state
    (c : CaptchaA2Client) (t : Transport) (captchaKey value : String)
    (env : Json) (b : Bool)
    (hok : ∀ req, (t req).ok = true)
    (hjson : ∀ req, (t req).json = Except.ok env)
    (hdata : env.getField "data" = some (Json.bool b)) :
    c.checkCaptcha t captchaKey value = (Except.ok (some (Json.bool b)), c) := by
  have hresp : ∀ req, handleFetchResponse (t req) = Except.ok env := by
    intro req
    simp [handleFetchResponse, hjson req, hok req]
  simp [CaptchaA2Client.checkCaptcha, CaptchaA2Client.makeRequest, hresp, hdata]

/-- Claim C5 witness: against a transport answering the envelope with
`data: true` the call resolves to `true`; against `data: false` it
resolves to `false`; the client record is unchanged both times. -/
theorem checkCaptcha_resolves_boolean_data_preserving_state_witness :
    sampleClient.checkCaptcha transportDataTrue "key" "179,76" =
      (Except.ok (some (Json.bool true)), sampleClient) ∧
    sampleClient.checkCaptcha transportDataFalse "key" "179,76" =
      (Except.ok (some (Json.bool false)), sampleClient) :=
  ⟨checkCaptcha_resolves_boolean_data_preserving_state sampleClient
      transportDataTrue "key" "179,76" envDataTrue true
      (fun _ => rfl) (fun _ => rfl) rfl,
    checkCaptcha_resolves_boolean_data_preserving_state sampleClient
      transportDataFalse "key" "179,76" envDataFalse false
      (fun _ => rfl) (fun _ => rfl) rfl⟩

/-- Claim C6: `generateCaptcha` passes the full parsed response
envelope through unmodified: on a 2xx answer with parsed envelope
`env` it resolves to exactly `env` (so every field — in particular
the challenge fields — keeps exactly the value the transport
returned), and the client record is unchanged. -/
theorem generateCaptcha_passes_envelope_through
    (c : CaptchaA2Client) (t : Transport) (env : Json)
    (hok : ∀ req, (t req).ok = true)
    (hjson : ∀ req, (t req).json = Except.ok env) :
    c.generateCaptcha t = (Except.ok env, c) ∧
    ∀ name : String,
      (c.generateCaptcha t).1.map (fun j => j.getField name) =
        Except.ok (env.getField name) := by
  have hresp : ∀ req, handleFetchResponse (t req) = Except.ok env := by
    intro req
    simp [handleFetchResponse, hjson req, hok req]
  have h1 : c.generateCaptcha t = (Except.ok env, c) := by
    simp [CaptchaA2Client.generateCaptcha, CaptchaA2Client.makeRequest, hresp]
  exact ⟨h1, fun name => by rw [h1]; rfl⟩

/-- Claim C6 witness: against a transport returning a full challenge
envelope, `generateCaptcha` resolves to exactly that envelope, and
the envelope indeed carries all documented challenge fields with the
transport's values. -/
theorem generateCaptcha_passes_envelope_through_witness :
    sampleClient.generateCaptcha transportChallenge =
      (Except.ok envChallenge, sampleClient) ∧
    envChallenge.getField "captcha_key" = some (Json.str "ck-1") ∧
    envChallenge.getField "image" = some (Json.str "data:image/png;base64,AAA") ∧
    envChallenge.getField "thumb" = some (Json.str "data:image/png;base64,BBB") ∧
    envChallenge.getField "thumbX" = some (Json.num 12) ∧
    envChallenge.getField "thumbY" = some (Json.num 34) ∧
    envChallenge.getField "thumbWidth" = some (Json.num 60) ∧
    envChallenge.getField "thumbHeight" = some (Json.num 40) ∧
    envChallenge.getField "master_width" = some (Json.num 300) ∧
    envChallenge.getField "master_height" = some (Json.num 200) ∧
    envChallenge.getField "id" = some (Json.str "42") :=
  ⟨(generateCaptcha_passes_envelope_through sampleClient transportChallenge
      envChallenge (fun _ => rfl) (fun _ => rfl)).1,
    rfl, rfl, rfl, rfl, rfl, rfl, rfl, rfl, rfl, rfl⟩

/-- Claim C9 counterexample: against a 2xx envelope whose `data` is
the string `"yes"` — neither a boolean nor null — `checkCaptcha`
does NOT produce any unexpected-response condition: it resolves
successfully and hands the non-boolean value straight to the caller
(the TS implementation returns `response.data` behind a compile-time
cast, with no runtime check). -/
theorem checkCaptcha_returns_nonboolean_data_silently :
    sampleClient.checkCaptcha nonBoolDataTransport "key" "179,76" =
      (Except.ok (some (Json.str "yes")), sampleClient) := by
  rfl

/-- Claim C9 (amended): `checkCaptcha` returns the envelope's `data`
field verbatim, whatever its shape — a non-boolean, non-null value is
silently passed through to the caller rather than raising an
unexpected-response condition. -/
theorem checkCaptcha_returns_data_field_verbatim
    (c : CaptchaA2Client) (t : Transport) (captchaKey value : String)
    (env : Json)
    (hok : ∀ req, (t req).ok = true)
    (hjson : ∀ req, (t req).json = Except.ok env) :
    c.checkCaptcha t captchaKey value = (Except.ok (env.getField "data"), c) := by
  have hresp : ∀ req, handleFetchResponse (t req) = Except.ok env := by
    intro req
    simp [handleFetchResponse, hjson req, hok req]
  simp [CaptchaA2Client.checkCaptcha, CaptchaA2Client.makeRequest, hresp]

/-- Claim C9 (amended) witness: at the concrete envelope whose `data`
is the string `"yes"`, the call resolves to exactly that non-boolean
value. -/
theorem checkCaptcha_returns_data_field_verbatim_witness :
    sampleClient.checkCaptcha nonBoolDataTransport "key2" "10,20" =
      (Except.ok (nonBoolDataEnv.getField "data"), sampleClient) ∧
    nonBoolDataEnv.getField "data" = some (Json.str "yes") :=
  ⟨checkCaptcha_returns_data_field_verbatim sampleClient nonBoolDataTransport
      "key2" "10,20" nonBoolDataEnv (fun _ => rfl) (fun _ => rfl),
    rfl⟩
